import Mathlib

/-!
Verification of the client-side authentication session and OTP lifecycle
manager of the swiss_bank repository
(`src/SwissBank-Website/src/services/authService.ts` and
`src/SwissBank-Website/src/hooks/useOTPStatus.ts`).

The TypeScript code is shallowly embedded: JavaScript objects whose fields
may be absent become structures with `Option` fields, promise resolution
versus rejection becomes `Except` (`Except.error` is a rejection / thrown
value), the event-loop side effects (fetch calls, timers) become explicit
data (transport oracles indexed by attempt number, pending-timer fields,
fetch counters), and JavaScript truthiness tests on strings and numbers are
modelled explicitly (`"" `, `null`, `0` are falsy).
-/

set_option autoImplicit false

/-- The uniform result object of the auth service
(`AuthResponse` in `authService.ts`).  Fields that a JavaScript object may
lack are `Option`; `success` and `message` are always present on the
objects the service builds. -/
structure AuthResponse where
  success : Bool
  message : String
  error_code : Option String
  retry_allowed : Option Bool
  technical_error : Option Bool
  session_id : Option String
deriving Repr, DecidableEq

/-- A value thrown inside an operation: either a response-shaped object
(thrown by `handleResponse` / `createErrorResponse`) or a `TypeError`
raised by the `fetch` layer itself. -/
inductive OpError where
  | resp (r : AuthResponse)
  | typeErr (message : String)
deriving Repr, DecidableEq

/-- `RetryManager.TECHNICAL_ERROR_CODES` from `authService.ts`. -/
def TECHNICAL_ERROR_CODES : List String :=
  ["SERVICE_ERROR", "DATABASE_ERROR", "NETWORK_ERROR",
   "TIMEOUT_ERROR", "SEND_FAILED", "RESEND_FAILED"]

/-- `s.includes(sub)` for a nonempty `sub`: `String.splitOn` yields more
than one piece exactly when the pattern occurs. -/
def strHasSub (s sub : String) : Bool :=
  decide (2 ≤ (s.splitOn sub).length)

/-- `RetryManager.shouldRetry`: retry when the thrown value carries a
truthy `technical_error`, else when its `error_code` (if the field is
present) is in the technical set, else when it is a fetch-layer
`TypeError` whose message mentions `fetch`. -/
def shouldRetry : OpError → Bool
  | OpError.resp r =>
    if r.technical_error == some true then true
    else
      match r.error_code with
      | some c => TECHNICAL_ERROR_CODES.contains c
      | none => false
  | OpError.typeErr m => strHasSub m "fetch"

/-- Observable trace of one `withRetry` run: the settled value, the final
state threaded through the attempts, how many times the operation ran, and
the backoff waits (in ms) performed between attempts, in order. -/
structure RetryTrace (σ α : Type) where
  result : Except OpError α
  state : σ
  attempts : Nat
  delays : List Nat
deriving Repr

/-- The loop body of `RetryManager.withRetry`.  `attempt` is the 0-indexed
attempt counter of the source loop and `fuel = maxRetries - attempt` the
number of retries still permitted; the source throws when
`attempt === maxRetries` (here `fuel = 0`) or when `shouldRetry` rejects
the failure, and otherwise waits `baseDelay * 2 ^ attempt` and loops. -/
def withRetryGo {σ α : Type} (op : Nat → σ → Except OpError α × σ)
    (baseDelay : Nat) : Nat → σ → Nat → RetryTrace σ α
  | attempt, st, fuel =>
    match op attempt st with
    | (Except.ok v, st1) => ⟨Except.ok v, st1, 1, []⟩
    | (Except.error e, st1) =>
      match fuel with
      | 0 => ⟨Except.error e, st1, 1, []⟩
      | fuel1 + 1 =>
        if shouldRetry e then
          let t := withRetryGo op baseDelay (attempt + 1) st1 fuel1
          ⟨t.result, t.state, t.attempts + 1, baseDelay * 2 ^ attempt :: t.delays⟩
        else ⟨Except.error e, st1, 1, []⟩

/-- `RetryManager.withRetry(operation, {maxRetries, baseDelay})`. -/
def withRetry {σ α : Type} (op : Nat → σ → Except OpError α × σ)
    (maxRetries baseDelay : Nat) (st : σ) : RetryTrace σ α :=
  withRetryGo op baseDelay 0 st maxRetries

/-- `RetryManager.DEFAULT_MAX_RETRIES`. -/
def DEFAULT_MAX_RETRIES : Nat := 3

/-- `RetryManager.DEFAULT_BASE_DELAY`. -/
def DEFAULT_BASE_DELAY : Nat := 1000

theorem withRetryGo_ok {σ α : Type} {op : Nat → σ → Except OpError α × σ}
    {baseDelay attempt : Nat} {st : σ} {fuel : Nat} {v : α} {st1 : σ}
    (h : op attempt st = (Except.ok v, st1)) :
    withRetryGo op baseDelay attempt st fuel = ⟨Except.ok v, st1, 1, []⟩ := by
  unfold withRetryGo
  rw [h]

theorem withRetryGo_err_zero {σ α : Type} {op : Nat → σ → Except OpError α × σ}
    {baseDelay attempt : Nat} {st : σ} {e : OpError} {st1 : σ}
    (h : op attempt st = (Except.error e, st1)) :
    withRetryGo op baseDelay attempt st 0 = ⟨Except.error e, st1, 1, []⟩ := by
  unfold withRetryGo
  rw [h]

theorem withRetryGo_err_stop {σ α : Type} {op : Nat → σ → Except OpError α × σ}
    {baseDelay attempt : Nat} {st : σ} {fuel : Nat} {e : OpError} {st1 : σ}
    (h : op attempt st = (Except.error e, st1)) (hr : shouldRetry e = false) :
    withRetryGo op baseDelay attempt st fuel = ⟨Except.error e, st1, 1, []⟩ := by
  cases fuel with
  | zero => exact withRetryGo_err_zero h
  | succ fuel1 =>
    unfold withRetryGo
    rw [h]
    simp [hr]

theorem withRetryGo_err_retry {σ α : Type} {op : Nat → σ → Except OpError α × σ}
    {baseDelay attempt : Nat} {st : σ} {fuel1 : Nat} {e : OpError} {st1 : σ}
    (h : op attempt st = (Except.error e, st1)) (hr : shouldRetry e = true) :
    withRetryGo op baseDelay attempt st (fuel1 + 1) =
      ⟨(withRetryGo op baseDelay (attempt + 1) st1 fuel1).result,
       (withRetryGo op baseDelay (attempt + 1) st1 fuel1).state,
       (withRetryGo op baseDelay (attempt + 1) st1 fuel1).attempts + 1,
       baseDelay * 2 ^ attempt ::
         (withRetryGo op baseDelay (attempt + 1) st1 fuel1).delays⟩ := by
  conv_lhs => unfold withRetryGo
  rw [h]
  simp [hr]

theorem withRetryGo_attempts_pos {σ α : Type}
    {op : Nat → σ → Except OpError α × σ} {baseDelay : Nat} :
    ∀ (fuel attempt : Nat) (st : σ),
      1 ≤ (withRetryGo op baseDelay attempt st fuel).attempts := by
  intro fuel
  induction fuel with
  | zero =>
    intro attempt st
    rcases h : op attempt st with ⟨r, st1⟩
    cases r with
    | ok v => rw [withRetryGo_ok h]
    | error e => rw [withRetryGo_err_zero h]
  | succ fuel1 ih =>
    intro attempt st
    rcases h : op attempt st with ⟨r, st1⟩
    cases r with
    | ok v => rw [withRetryGo_ok h]
    | error e =>
      rcases hr : shouldRetry e with _ | _
      · rw [withRetryGo_err_stop h hr]
      · rw [withRetryGo_err_retry h hr]
        exact Nat.le_succ_of_le (ih (attempt + 1) st1)

theorem shouldRetry_of_code {r : AuthResponse} {c : String}
    (h : r.error_code = some c)
    (hc : TECHNICAL_ERROR_CODES.contains c = true) :
    shouldRetry (OpError.resp r) = true := by
  have hm : c ∈ TECHNICAL_ERROR_CODES := by simpa using hc
  cases ht : r.technical_error == some true <;>
    simp [shouldRetry, h, hm, ht]

/-- Claim C2: an operation that always fails with a `DATABASE_ERROR`-coded
failure, run under `withRetry` with `maxRetries = 3`, is invoked exactly 4
times, with waits of `baseDelay, 2*baseDelay, 4*baseDelay` between
consecutive attempts (`baseDelay * 2 ^ n` before 0-indexed retry `n`), and
the failure thrown by the final attempt propagates unchanged. -/
theorem claim_C2 (σ : Type) (s0 : σ) (baseDelay : Nat)
    (fail : Nat → σ → AuthResponse) (next : Nat → σ → σ)
    (hcode : ∀ n s, (fail n s).error_code = some "DATABASE_ERROR") :
    withRetry (fun n s =>
        ((Except.error (OpError.resp (fail n s)) : Except OpError AuthResponse),
         next n s))
        3 baseDelay s0 =
      ⟨Except.error (OpError.resp (fail 3 (next 2 (next 1 (next 0 s0))))),
       next 3 (next 2 (next 1 (next 0 s0))), 4,
       [baseDelay, 2 * baseDelay, 4 * baseDelay]⟩ := by
  have hr : ∀ n s,
      shouldRetry (OpError.resp (fail n s)) = true := by
    intro n s
    exact shouldRetry_of_code (hcode n s) (by decide)
  unfold withRetry
  rw [withRetryGo_err_retry rfl (hr 0 s0),
      withRetryGo_err_retry rfl (hr 1 (next 0 s0)),
      withRetryGo_err_retry rfl (hr 2 (next 1 (next 0 s0))),
      withRetryGo_err_zero rfl]
  simp [pow_succ, Nat.mul_comm]

/-- Claim C2 witness: a concrete always-`DATABASE_ERROR` operation with
`baseDelay = 1000` runs 4 times with waits 1000, 2000, 4000 ms. -/
theorem claim_C2_witness :
    withRetry
        (fun _ (s : Unit) =>
          ((Except.error (OpError.resp
            ⟨false, "Database error occurred. Please try again.",
             some "DATABASE_ERROR", some true, some true, none⟩)
            : Except OpError AuthResponse), s))
        3 1000 () =
      ⟨Except.error (OpError.resp
        ⟨false, "Database error occurred. Please try again.",
         some "DATABASE_ERROR", some true, some true, none⟩),
       (), 4, [1000, 2000, 4000]⟩ := by
  have h := claim_C2 Unit () 1000
    (fun _ _ =>
      ⟨false, "Database error occurred. Please try again.",
       some "DATABASE_ERROR", some true, some true, none⟩)
    (fun _ s => s) (fun _ _ => rfl)
  simpa using h

/-- Claim C3: an operation whose failure carries no truthy
`technical_error` marker and whose `error_code` is outside the technical
set (e.g. `INVALID_OTP`) is invoked exactly once by `withRetry`, with no
backoff wait, and its failure propagates immediately. -/
theorem claim_C3 (σ : Type) (s0 : σ) (baseDelay maxRetries : Nat)
    (fail : Nat → σ → AuthResponse) (next : Nat → σ → σ)
    (htech : (fail 0 s0).technical_error ≠ some true)
    (hcode : ∀ c, (fail 0 s0).error_code = some c →
      TECHNICAL_ERROR_CODES.contains c = false) :
    withRetry (fun n s =>
        ((Except.error (OpError.resp (fail n s)) : Except OpError AuthResponse),
         next n s))
        maxRetries baseDelay s0 =
      ⟨Except.error (OpError.resp (fail 0 s0)), next 0 s0, 1, []⟩ := by
  have hr : shouldRetry (OpError.resp (fail 0 s0)) = false := by
    rcases he : (fail 0 s0).error_code with _ | c
    · simp [shouldRetry, he, beq_iff_eq, htech]
    · have hm : c ∉ TECHNICAL_ERROR_CODES := by simpa using hcode c he
      simp [shouldRetry, he, beq_iff_eq, htech, hm]
  unfold withRetry
  exact withRetryGo_err_stop rfl hr

/-- The mutable state of `BackendAlignedAuthService` that the verified
operations read and write: the cached session id (`this.sessionId`,
`string | null`).  Storage writes that mirror it are modelled separately
by the `Store` functions below. -/
structure AuthState where
  sessionId : Option String
deriving Repr, DecidableEq

/-- JavaScript truthiness of a `string | null | undefined` value:
`null`, `undefined` and `""` are falsy. -/
def optStrTruthy : Option String → Bool
  | none => false
  | some s => !(s == "")

/-- `BackendAlignedAuthService.createErrorResponse` (without the unused
`additionalData` parameter, which no call site supplies). -/
def createErrorResponse (message : String) (errorCode : String)
    (retryAllowed technicalError : Bool) : AuthResponse :=
  { success := false, message := message, error_code := some errorCode,
    retry_allowed := some retryAllowed, technical_error := some technicalError,
    session_id := none }

/-- The fields of a parsed JSON response body that the verified code
reads; a field the server did not send is `none`. -/
structure BodyData where
  success : Option Bool
  message : Option String
  error_code : Option String
  retry_allowed : Option Bool
  technical_error : Option Bool
  session_id : Option String
deriving Repr, DecidableEq

/-- The body of a fetch `Response`: either text that `JSON.parse` rejects
(`malformed`), or parsed data (an empty body is `data` with every field
`none`, matching `text ? JSON.parse(text) : {}`). -/
inductive Body where
  | malformed
  | data (d : BodyData)
deriving Repr, DecidableEq

/-- A fetch `Response` as `handleResponse` consumes it.  `elapsedMs`
records how long the transport took to deliver it; the source attaches no
`AbortSignal` or timeout to any `fetch` call, so nothing in the embedded
code reads this field. -/
structure RespModel where
  ok : Bool
  status : Nat
  body : Body
  elapsedMs : Nat
deriving Repr, DecidableEq

/-- The outcome of one `fetch` call: a delivered `Response`, or a
rejection of the fetch promise itself with a `TypeError`. -/
inductive FetchOutcome where
  | response (r : RespModel)
  | netFail (message : String)
deriving Repr, DecidableEq

/-- `BackendAlignedAuthService.updateSession` (the storage write with its
24-hour TTL is modelled by `Store.set`). -/
def updateSession (st : AuthState) (sid : String) : AuthState :=
  { sessionId := some sid }

/-- `BackendAlignedAuthService.clearAuth` (storage removal and interval
teardown are not part of `AuthState`). -/
def clearAuth (st : AuthState) : AuthState :=
  { sessionId := none }

/-- `BackendAlignedAuthService.handleResponse`.  A malformed body becomes
a thrown technical `NETWORK_ERROR` response object; otherwise the parsed
fields are spread over `{success: response.ok, message: data.message ||
fallback}` (the spread wins for fields the body carries), a fresh
`session_id` is adopted, HTTP 401 clears the session, 429 marks the result
retry-allowed, and 500/502/503/504 mark it technical and retry-allowed;
every non-ok response is thrown, an ok response is returned. -/
def handleResponse (st : AuthState) (resp : RespModel) :
    Except OpError AuthResponse × AuthState :=
  match resp.body with
  | Body.malformed =>
    (Except.error (OpError.resp
      (createErrorResponse "Invalid response from server" "NETWORK_ERROR" true true)), st)
  | Body.data d =>
    let rd : AuthResponse :=
      { success := d.success.getD resp.ok
        message := d.message.getD (if resp.ok then "Success" else "Request failed")
        error_code := d.error_code
        retry_allowed := d.retry_allowed
        technical_error := d.technical_error
        session_id := d.session_id }
    let st1 := if optStrTruthy rd.session_id && !(rd.session_id == st.sessionId)
               then updateSession st (rd.session_id.getD "") else st
    if resp.ok then (Except.ok rd, st1)
    else if resp.status == 401 then (Except.error (OpError.resp rd), clearAuth st1)
    else if resp.status == 429 then
      (Except.error (OpError.resp { rd with retry_allowed := some true }), st1)
    else if resp.status == 500 || resp.status == 502 ||
            resp.status == 503 || resp.status == 504 then
      (Except.error (OpError.resp
        { rd with technical_error := some true, retry_allowed := some true }), st1)
    else (Except.error (OpError.resp rd), st1)

/-- One fetch-plus-normalize step shared by the network operations: a
fetch-layer rejection propagates as a `TypeError`, a delivered response
goes through `handleResponse`.  The transport oracle is indexed by the
0-indexed attempt number. -/
def requestOp (transport : Nat → FetchOutcome) (n : Nat) (st : AuthState) :
    Except OpError AuthResponse × AuthState :=
  match transport n with
  | FetchOutcome.netFail m => (Except.error (OpError.typeErr m), st)
  | FetchOutcome.response r => handleResponse st r

/-- The operation `createSession` hands to `withRetry`: one request, and
on a successful result carrying a truthy `session_id`, `updateSession`. -/
def createSessionOp (transport : Nat → FetchOutcome) (n : Nat) (st : AuthState) :
    Except OpError AuthResponse × AuthState :=
  match requestOp transport n st with
  | (Except.ok result, st1) =>
    if result.success && optStrTruthy result.session_id
    then (Except.ok result, updateSession st1 (result.session_id.getD ""))
    else (Except.ok result, st1)
  | (Except.error e, st1) => (Except.error e, st1)

/-- How an operation's promise settles: fulfilled with a response object,
fulfilled with a caught non-response value cast to the response type
(`getSessionStatus`'s `return error as SessionStatusResponse` on a caught
`TypeError`), or rejected with the thrown value. -/
inductive Settled where
  | fulfilled (r : AuthResponse)
  | fulfilledCast (e : OpError)
  | rejected (e : OpError)
deriving Repr, DecidableEq

/-- An uncaught `Except` settles the operation's promise directly:
`ok` fulfills, a thrown value rejects. -/
def settleOf : Except OpError AuthResponse → Settled
  | Except.ok r => Settled.fulfilled r
  | Except.error e => Settled.rejected e

/-- Everything observable about one public operation call: how its promise
settled, the service state afterwards, how many network calls it issued,
and the backoff waits it performed. -/
structure OpResult where
  settled : Settled
  state : AuthState
  fetches : Nat
  delays : List Nat
deriving Repr, DecidableEq

/-- `BackendAlignedAuthService.createSession`: the retry-wrapped request
with the service defaults; no try/catch surrounds `withRetry`, so an
`Except.error` escaping it rejects the returned promise. -/
def createSession (st : AuthState) (transport : Nat → FetchOutcome) : OpResult :=
  let t := withRetry (createSessionOp transport)
    DEFAULT_MAX_RETRIES DEFAULT_BASE_DELAY st
  ⟨settleOf t.result, t.state, t.attempts, t.delays⟩

/-- Character class `[a-zA-Z0-9._%+-]` of the email pattern's local part. -/
def isLocalChar (c : Char) : Bool :=
  c.isAlphanum || c == '.' || c == '_' || c == '%' || c == '+' || c == '-'

/-- Character class `[a-zA-Z0-9.-]` of the email pattern's domain part. -/
def isDomainChar (c : Char) : Bool :=
  c.isAlphanum || c == '.' || c == '-'

/-- The anchored pattern `^[a-zA-Z0-9._%+-]+@[a-zA-Z0-9.-]+\.[a-zA-Z]{2,}$`
of `validateEmailFormat`.  A string matches exactly when it splits at its
(unique) `@` into a nonempty local part over the local class and a domain
that splits at its last dot into a nonempty part over the domain class and
a final label of at least two ASCII letters: any successful backtracking
split must use the last dot, because the trailing `[a-zA-Z]{2,}` admits no
dot. -/
def emailRegexAccepts (s : String) : Bool :=
  let cs := s.data
  let localPart := cs.takeWhile (fun c => c != '@')
  let rest := cs.dropWhile (fun c => c != '@')
  match rest with
  | [] => false
  | _ :: domain =>
    let revDomain := domain.reverse
    let tldRev := revDomain.takeWhile (fun c => c != '.')
    let restRev := revDomain.dropWhile (fun c => c != '.')
    match restRev with
    | [] => false
    | _ :: midRev =>
      decide (localPart ≠ []) && localPart.all isLocalChar &&
      decide (midRev ≠ []) && midRev.all isDomainChar &&
      decide (2 ≤ tldRev.length) && tldRev.all (fun c => c.isAlpha)

/-- `BackendAlignedAuthService.validateEmailFormat`. -/
def validateEmailFormat (email : String) : Bool :=
  if email == "" then false
  else emailRegexAccepts email && decide (email.length ≤ 254)

/-- `BackendAlignedAuthService.validatePhoneFormat`:
`phone.replace(/\D/g, '')` keeps exactly the ASCII digits. -/
def validatePhoneFormat (phone : String) : Bool :=
  if phone == "" then false
  else
    let cleanPhone := phone.data.filter Char.isDigit
    decide (10 ≤ cleanPhone.length) && decide (cleanPhone.length ≤ 15)

/-- The ECMA-262 `WhiteSpace` and `LineTerminator` code points that
`String.prototype.trim()` strips: TAB, LF, VT, FF, CR, SP, NBSP, Ogham
space mark, the Unicode Zs range U+2000..U+200A, LS, PS, narrow NBSP,
medium mathematical space, ideographic space, and ZWNBSP (U+FEFF). -/
def isJsWhitespace (c : Char) : Bool :=
  c.toNat == 0x0009 || c.toNat == 0x000A || c.toNat == 0x000B ||
  c.toNat == 0x000C || c.toNat == 0x000D || c.toNat == 0x0020 ||
  c.toNat == 0x00A0 || c.toNat == 0x1680 ||
  (decide (0x2000 ≤ c.toNat) && decide (c.toNat ≤ 0x200A)) ||
  c.toNat == 0x2028 || c.toNat == 0x2029 || c.toNat == 0x202F ||
  c.toNat == 0x205F || c.toNat == 0x3000 || c.toNat == 0xFEFF

/-- JavaScript `String.prototype.trim()`: strip leading and trailing
ECMA-262 whitespace and line terminators. -/
def jsTrim (s : String) : String :=
  ⟨((s.data.dropWhile isJsWhitespace).reverse.dropWhile
      isJsWhitespace).reverse⟩

/-- `BackendAlignedAuthService.validateOTPFormat`:
`/^\d{6}$/.test(otp.trim())` holds exactly when the trimmed string has
length 6 and every character is an ASCII digit. -/
def validateOTPFormat (otp : String) : Bool :=
  if otp == "" then false
  else (jsTrim otp).length == 6 && (jsTrim otp).data.all Char.isDigit

/-- `BackendAlignedAuthService.validateContactInput`, with JavaScript
truthiness on the optional arguments. -/
def validateContactInput (email phone : Option String) : Option AuthResponse :=
  if !optStrTruthy email && !optStrTruthy phone then
    some (createErrorResponse "Please provide either email or phone number"
      "INVALID_INPUT" false false)
  else if optStrTruthy email && optStrTruthy phone then
    some (createErrorResponse "Please provide either email or phone number, not both."
      "INVALID_INPUT" false false)
  else if optStrTruthy email && !validateEmailFormat (email.getD "") then
    some (createErrorResponse "Please enter a valid email address."
      "INVALID_EMAIL_FORMAT" false false)
  else if optStrTruthy phone && !validatePhoneFormat (phone.getD "") then
    some (createErrorResponse "Please enter a valid phone number."
      "INVALID_PHONE_FORMAT" false false)
  else none

/-- The `NO_SESSION` result the operations return when
`validateSession()` fails (`!this.sessionId`). -/
def noSessionResponse : AuthResponse :=
  createErrorResponse "No active session. Please refresh and try again."
    "NO_SESSION" false false

/-- `BackendAlignedAuthService.verifyContact`: `NO_SESSION` fast-fail,
then local contact validation, then the retry-wrapped request (its success
path only emits an event, leaving the state as `handleResponse` left
it). -/
def verifyContact (st : AuthState) (email phone : Option String)
    (transport : Nat → FetchOutcome) : OpResult :=
  if !optStrTruthy st.sessionId then
    ⟨Settled.fulfilled noSessionResponse, st, 0, []⟩
  else
    match validateContactInput email phone with
    | some validationError => ⟨Settled.fulfilled validationError, st, 0, []⟩
    | none =>
      let t := withRetry (requestOp transport)
        DEFAULT_MAX_RETRIES DEFAULT_BASE_DELAY st
      ⟨settleOf t.result, t.state, t.attempts, t.delays⟩

/-- `BackendAlignedAuthService.verifyOTP`: `NO_SESSION` fast-fail, then
local OTP-format validation (resolving with an `INVALID_OTP` failure and
no network call), then the retry-wrapped request. -/
def verifyOTP (st : AuthState) (otp : String)
    (transport : Nat → FetchOutcome) : OpResult :=
  if !optStrTruthy st.sessionId then
    ⟨Settled.fulfilled noSessionResponse, st, 0, []⟩
  else if !validateOTPFormat otp then
    ⟨Settled.fulfilled (createErrorResponse "Please enter a valid 6-digit OTP."
      "INVALID_OTP" false false), st, 0, []⟩
  else
    let t := withRetry (requestOp transport)
      DEFAULT_MAX_RETRIES DEFAULT_BASE_DELAY st
    ⟨settleOf t.result, t.state, t.attempts, t.delays⟩

/-- `BackendAlignedAuthService.resendOTP`: `NO_SESSION` fast-fail, then
the retry-wrapped request. -/
def resendOTP (st : AuthState) (transport : Nat → FetchOutcome) : OpResult :=
  if !optStrTruthy st.sessionId then
    ⟨Settled.fulfilled noSessionResponse, st, 0, []⟩
  else
    let t := withRetry (requestOp transport)
      DEFAULT_MAX_RETRIES DEFAULT_BASE_DELAY st
    ⟨settleOf t.result, t.state, t.attempts, t.delays⟩

/-- `BackendAlignedAuthService.getSessionStatus`: no retry wrapper; a
single request inside try/catch whose catch clause returns the caught
value (`return error as SessionStatusResponse`), so a thrown response
object is resolved and a caught `TypeError` is resolved as an unsound
cast. -/
def getSessionStatus (st : AuthState) (outcome : FetchOutcome) : OpResult :=
  if !optStrTruthy st.sessionId then
    ⟨Settled.fulfilled (createErrorResponse "No active session found."
      "NO_SESSION" false false), st, 0, []⟩
  else
    match (match outcome with
           | FetchOutcome.netFail m => (Except.error (OpError.typeErr m), st)
           | FetchOutcome.response r => handleResponse st r) with
    | (Except.ok r, st1) => ⟨Settled.fulfilled r, st1, 1, []⟩
    | (Except.error (OpError.resp rd), st1) => ⟨Settled.fulfilled rd, st1, 1, []⟩
    | (Except.error e, st1) => ⟨Settled.fulfilledCast e, st1, 1, []⟩

/-- `BackendAlignedAuthService.isAuthenticated`: `!!this.sessionId`. -/
def isAuthenticated (st : AuthState) : Bool :=
  optStrTruthy st.sessionId

/-- `BackendAlignedAuthService.REQUEST_TIMEOUT` (declared once in the
source and referenced nowhere else). -/
def REQUEST_TIMEOUT : Nat := 30000

/-- Replace the transport duration of a delivered response, leaving a
fetch-layer rejection unchanged. -/
def setElapsedOutcome (o : FetchOutcome) (d : Nat) : FetchOutcome :=
  match o with
  | FetchOutcome.response r => FetchOutcome.response { r with elapsedMs := d }
  | FetchOutcome.netFail m => FetchOutcome.netFail m

/-- The promise settled by fulfillment (with a response object). -/
def isFulfilled : Settled → Bool
  | Settled.fulfilled _ => true
  | _ => false

/-- The promise resolved with a failure result object (`success: false`). -/
def fulfilledFailure : Settled → Bool
  | Settled.fulfilled r => !r.success
  | _ => false

/-- The promise rejected, and the thrown value is a failure result object. -/
def rejectedFailure : Settled → Bool
  | Settled.rejected (OpError.resp rd) => !rd.success
  | _ => false

/-- The `error_code` of a fulfilled result, when there is one. -/
def settledErrorCode : Settled → Option String
  | Settled.fulfilled r => r.error_code
  | _ => none

/-- What `localStorage` holds under one key, as `SimpleStorageManager.get`
sees it after `JSON.parse`: a parse failure (`malformed`) or a parsed
`{value, expiry}` object (`expiry` is `null` or a number; the stored
`timestamp` field is never read back). -/
inductive RawVal (α : Type) where
  | malformed
  | item (value : α) (expiry : Option Nat)
deriving Repr, DecidableEq

/-- The `localStorage` contents visible to the manager. -/
def Store (α : Type) : Type := String → Option (RawVal α)

/-- The namespaced key `` `${this.prefix}${key}` `` with
`this.prefix = 'eva_auth_'`. -/
def fullKey (key : String) : String := "eva_auth_" ++ key

/-- `SimpleStorageManager.remove`: `localStorage.removeItem`. -/
def Store.remove {α : Type} (store : Store α) (key : String) : Store α :=
  fun k => if k == fullKey key then none else store k

/-- `SimpleStorageManager.get`, returning the value (or `null`) together
with the possibly-updated storage.  A missing or unparseable entry yields
`null` (the catch clause); an entry with a truthy `expiry` (non-`null` and
nonzero, by JavaScript number truthiness) earlier than `Date.now()` is
removed and yields `null`; otherwise the stored value is returned. -/
def Store.get {α : Type} (store : Store α) (now : Nat) (key : String) :
    Option α × Store α :=
  match store (fullKey key) with
  | none => (none, store)
  | some RawVal.malformed => (none, store)
  | some (RawVal.item v e) =>
    match e with
    | some ex => if ex ≠ 0 ∧ ex < now then (none, Store.remove store key)
                 else (some v, store)
    | none => (some v, store)

/-- `SimpleStorageManager.set`: stores `{value, expiry: expiry ?
Date.now() + expiry : null}` — a missing or zero (falsy) TTL stores a
`null` expiry. -/
def Store.set {α : Type} (store : Store α) (now : Nat) (key : String)
    (value : α) (ttl : Option Nat) : Store α :=
  let expiry : Option Nat :=
    match ttl with
    | some t => if t ≠ 0 then some (now + t) else none
    | none => none
  fun k => if k == fullKey key then some (RawVal.item value expiry) else store k

/-- The fields of the server's OTP status projection that the polling
logic of `useOTPStatus` reads (the remaining fields of the `OTPStatus`
interface are display-only). -/
structure OTPStatus where
  otp_active : Bool
  otp_initiated : Bool
  remaining_seconds : Int
  status : String
deriving Repr, DecidableEq

/-- The `pollInterval` computation of the frequency-adjustment effect in
`useOTPStatus` (the branch chain on `otp_active` and
`remaining_seconds`). -/
def pollInterval (s : OTPStatus) : Nat :=
  if !s.otp_active then 5000
  else if s.remaining_seconds ≤ 60 then 500
  else if s.remaining_seconds ≤ 180 then 1000
  else 2000

/-- The `getUrgencyLevel` callback of `useOTPStatus`. -/
def getUrgencyLevel (seconds : Int) : String :=
  if seconds ≤ 0 then "expired"
  else if seconds ≤ 30 then "critical"
  else if seconds ≤ 60 then "urgent"
  else if seconds ≤ 180 then "warning"
  else "normal"

/-- The hook state of `useOTPStatus`: the cached status, the error
message, the delay of the pending `setInterval` timer held in
`intervalRef` (`none` = no timer), and `lastFetchRef`. -/
structure PollerState where
  otpStatus : Option OTPStatus
  errorMsg : Option String
  timerDelay : Option Nat
  lastFetch : Nat
deriving Repr, DecidableEq

/-- The entry of `refreshStatus` up to the point where the network call
is issued: a falsy session id clears status and error and returns without
fetching; a call within 1000 ms of the previous fetch is dropped;
otherwise `lastFetchRef` is stamped and the fetch goes out (`true`). -/
def refreshStart (sessionId : Option String) (now : Nat) (st : PollerState) :
    PollerState × Bool :=
  if !optStrTruthy sessionId then
    ({ st with otpStatus := none, errorMsg := none }, false)
  else if now - st.lastFetch < 1000 then (st, false)
  else ({ st with lastFetch := now }, true)

/-- The session-id effect of `useOTPStatus` (the first `useEffect`): a
falsy session id clears the pending timer and the cached status and
performs no fetch; otherwise it runs `refreshStatus` once and arms the
1000 ms polling interval. -/
def sessionEffect (sessionId : Option String) (now : Nat) (st : PollerState) :
    PollerState × Bool :=
  if !optStrTruthy sessionId then
    ({ st with timerDelay := none, otpStatus := none }, false)
  else
    let p := refreshStart sessionId now st
    ({ p.1 with timerDelay := some 1000 }, p.2)

/-- A successful status fetch landing: `setOtpStatus(result.data)` and
`setError(null)`, after which the frequency-adjustment effect replaces the
pending timer with one of delay `pollInterval` computed from the fresh
status (it returns early when the session id is falsy). -/
def applyFetchResult (sessionId : Option String) (st : PollerState)
    (result : OTPStatus) : PollerState :=
  let st1 := { st with otpStatus := some result, errorMsg := none }
  if optStrTruthy sessionId then
    { st1 with timerDelay := some (pollInterval result) }
  else st1

theorem applyFetchResult_timer (sessionId : Option String) (st : PollerState)
    (r : OTPStatus) (hsid : optStrTruthy sessionId = true) :
    (applyFetchResult sessionId st r).timerDelay = some (pollInterval r) := by
  simp [applyFetchResult, hsid]

/-- Claim C6: after every completed OTP status fetch the poller's next
scheduled delay is computed from that fetch's result by the ordered table
(5000 ms when `otp_active` is false, else 500 ms when
`remaining_seconds ≤ 60`, else 1000 ms when `remaining_seconds ≤ 180`,
else 2000 ms); in particular a fetch with `remaining_seconds = 200`
followed by one with `remaining_seconds = 45` shrinks the next delay from
2000 ms to 500 ms. -/
theorem claim_C6 (sessionId : Option String) (st : PollerState)
    (r r1 r2 : OTPStatus) (hsid : optStrTruthy sessionId = true) :
    ((r.otp_active = false →
        (applyFetchResult sessionId st r).timerDelay = some 5000) ∧
     (r.otp_active = true → r.remaining_seconds ≤ 60 →
        (applyFetchResult sessionId st r).timerDelay = some 500) ∧
     (r.otp_active = true → 60 < r.remaining_seconds → r.remaining_seconds ≤ 180 →
        (applyFetchResult sessionId st r).timerDelay = some 1000) ∧
     (r.otp_active = true → 180 < r.remaining_seconds →
        (applyFetchResult sessionId st r).timerDelay = some 2000)) ∧
    (r1.otp_active = true → r1.remaining_seconds = 200 →
     r2.otp_active = true → r2.remaining_seconds = 45 →
      (applyFetchResult sessionId st r1).timerDelay = some 2000 ∧
      (applyFetchResult sessionId (applyFetchResult sessionId st r1) r2).timerDelay
        = some 500) := by
  refine ⟨⟨?_, ?_, ?_, ?_⟩, ?_⟩
  · intro ha
    rw [applyFetchResult_timer sessionId st r hsid]
    simp [pollInterval, ha]
  · intro ha h60
    rw [applyFetchResult_timer sessionId st r hsid]
    simp only [pollInterval, ha, Bool.not_true, Bool.false_eq_true, if_false]
    rw [if_pos h60]
  · intro ha h60 h180
    rw [applyFetchResult_timer sessionId st r hsid]
    simp only [pollInterval, ha, Bool.not_true, Bool.false_eq_true, if_false]
    rw [if_neg (by omega), if_pos h180]
  · intro ha h180
    rw [applyFetchResult_timer sessionId st r hsid]
    simp only [pollInterval, ha, Bool.not_true, Bool.false_eq_true, if_false]
    rw [if_neg (by omega), if_neg (by omega)]
  · intro ha1 hr1 ha2 hr2
    constructor
    · rw [applyFetchResult_timer sessionId st r1 hsid]
      simp only [pollInterval, ha1, Bool.not_true, Bool.false_eq_true, if_false, hr1]
      rw [if_neg (by omega), if_neg (by omega)]
    · rw [applyFetchResult_timer sessionId _ r2 hsid]
      simp only [pollInterval, ha2, Bool.not_true, Bool.false_eq_true, if_false, hr2]
      rw [if_pos (by omega)]

/-- Claim C6 witness: with an active session, a fetch reporting an active
OTP with 200 s remaining schedules 2000 ms, and the next fetch reporting
45 s remaining shrinks the schedule to 500 ms. -/
theorem claim_C6_witness :
    (applyFetchResult (some "sess1") ⟨none, none, some 1000, 0⟩
        ⟨true, true, 200, "active"⟩).timerDelay = some 2000 ∧
    (applyFetchResult (some "sess1")
        (applyFetchResult (some "sess1") ⟨none, none, some 1000, 0⟩
          ⟨true, true, 200, "active"⟩)
        ⟨true, true, 45, "active_warning"⟩).timerDelay = some 500 := by
  exact (claim_C6 (some "sess1") ⟨none, none, some 1000, 0⟩
      ⟨true, true, 200, "active"⟩ ⟨true, true, 200, "active"⟩
      ⟨true, true, 45, "active_warning"⟩ (by decide)).2
    rfl rfl rfl rfl

/-- Claim C7: when the poller's session id becomes null, the session-id
effect cancels the pending poll timer and clears the cached status without
fetching, and `refreshStatus` invoked with a null session id clears status
and error and returns without a network call. -/
theorem claim_C7 (st : PollerState) (now : Nat) :
    sessionEffect none now st =
      ({ st with timerDelay := none, otpStatus := none }, false) ∧
    refreshStart none now st =
      ({ st with otpStatus := none, errorMsg := none }, false) := by
  constructor <;> rfl

/-- Claim C8: an entry written by `set` with a (truthy) TTL whose expiry
timestamp `tset + ttl` is earlier than the current time is removed by
`get`, which returns `null` rather than the stale value; `get` of a
missing or unparseable entry also returns `null` rather than throwing,
and removal really deletes the namespaced entry. -/
theorem claim_C8 :
    (∀ (α : Type) (store : Store α) (tset ttl : Nat) (key : String) (v : α)
        (now : Nat), 0 < ttl → tset + ttl < now →
      Store.get (Store.set store tset key v (some ttl)) now key =
        (none, Store.remove (Store.set store tset key v (some ttl)) key)) ∧
    (∀ (α : Type) (store : Store α) (now : Nat) (key : String),
      store (fullKey key) = none → Store.get store now key = (none, store)) ∧
    (∀ (α : Type) (store : Store α) (now : Nat) (key : String),
      store (fullKey key) = some RawVal.malformed →
      Store.get store now key = (none, store)) ∧
    (∀ (α : Type) (store : Store α) (key : String),
      Store.remove store key (fullKey key) = none) := by
  refine ⟨?_, ?_, ?_, ?_⟩
  · intro α store tset ttl key v now hpos hlt
    have hne : ttl ≠ 0 := by omega
    have hset : Store.set store tset key v (some ttl) (fullKey key) =
        some (RawVal.item v (some (tset + ttl))) := by
      simp [Store.set, hne]
    have h0 : tset + ttl ≠ 0 := by omega
    unfold Store.get
    rw [hset]
    simp [h0, hlt]
  · intro α store now key h
    unfold Store.get
    rw [h]
  · intro α store now key h
    unfold Store.get
    rw [h]
  · intro α store key
    simp [Store.remove]

/-- Claim C8 witness: a `session_id` entry stored at time 0 with TTL 1 is
expired and removed by a `get` at time 2. -/
theorem claim_C8_witness :
    Store.get (Store.set (fun _ => (none : Option (RawVal String)))
        0 "session_id" "sid" (some 1)) 2 "session_id" =
      (none, Store.remove (Store.set (fun _ => none) 0 "session_id" "sid"
        (some 1)) "session_id") := by
  exact claim_C8.1 String (fun _ => none) 0 1 "session_id" "sid" 2
    (by decide) (by decide)

theorem validateOTPFormat_iff (otp : String) :
    validateOTPFormat otp = true ↔
      ((jsTrim otp).length = 6 ∧ (jsTrim otp).data.all Char.isDigit = true) := by
  by_cases h : otp = ""
  · subst h
    constructor
    · intro hfalse
      exact absurd hfalse (by decide)
    · intro hlen
      exact absurd hlen.1 (by decide)
  · have hb : (otp == "") = false := by simp [h]
    unfold validateOTPFormat
    rw [hb]
    simp

/-- Claim C4: with an active session id, `verifyOTP` on an input that is
not exactly 6 digits after trimming resolves with the `INVALID_OTP`
failure result and issues no network call; on an input that is exactly 6
digits after trimming the local validation passes and the network call is
made. -/
theorem claim_C4 (st : AuthState) (otp : String)
    (transport : Nat → FetchOutcome)
    (hsession : optStrTruthy st.sessionId = true) :
    (¬ ((jsTrim otp).length = 6 ∧ (jsTrim otp).data.all Char.isDigit = true) →
      verifyOTP st otp transport =
        ⟨Settled.fulfilled (createErrorResponse
            "Please enter a valid 6-digit OTP." "INVALID_OTP" false false),
         st, 0, []⟩) ∧
    (((jsTrim otp).length = 6 ∧ (jsTrim otp).data.all Char.isDigit = true) →
      1 ≤ (verifyOTP st otp transport).fetches) := by
  constructor
  · intro hbad
    have hv : validateOTPFormat otp = false := by
      cases hval : validateOTPFormat otp with
      | false => rfl
      | true => exact absurd ((validateOTPFormat_iff otp).mp hval) hbad
    simp [verifyOTP, hsession, hv]
  · intro hgood
    have hv : validateOTPFormat otp = true := (validateOTPFormat_iff otp).mpr hgood
    simp only [verifyOTP, hsession, hv, Bool.not_true, Bool.false_eq_true,
      if_false, Bool.not_false, Bool.true_eq_false]
    unfold withRetry
    exact withRetryGo_attempts_pos _ _ _

/-- Claim C4 witness: with session `sess1`, the 5-digit input `12345` is
rejected locally with no network call, and the 6-digit input `123456`
reaches the transport. -/
theorem claim_C4_witness :
    verifyOTP ⟨some "sess1"⟩ "12345" (fun _ => FetchOutcome.netFail "x") =
      ⟨Settled.fulfilled (createErrorResponse
          "Please enter a valid 6-digit OTP." "INVALID_OTP" false false),
       ⟨some "sess1"⟩, 0, []⟩ ∧
    1 ≤ (verifyOTP ⟨some "sess1"⟩ "123456"
          (fun _ => FetchOutcome.netFail "x")).fetches := by
  constructor
  · exact (claim_C4 ⟨some "sess1"⟩ "12345" _ (by decide)).1 (by decide)
  · exact (claim_C4 ⟨some "sess1"⟩ "123456" _ (by decide)).2 (by decide)

/-- Claim C3 witness: a concrete `INVALID_OTP` business failure is
attempted exactly once with no backoff. -/
theorem claim_C3_witness :
    withRetry (fun _ (s : Unit) =>
        ((Except.error (OpError.resp
          ⟨false, "Invalid OTP. Please check and try again.",
           some "INVALID_OTP", some false, some false, none⟩)
          : Except OpError AuthResponse), s))
        3 1000 () =
      ⟨Except.error (OpError.resp
        ⟨false, "Invalid OTP. Please check and try again.",
         some "INVALID_OTP", some false, some false, none⟩), (), 1, []⟩ := by
  have h := claim_C3 Unit () 1000 3
    (fun _ _ =>
      ⟨false, "Invalid OTP. Please check and try again.",
       some "INVALID_OTP", some false, some false, none⟩)
    (fun _ s => s) (by decide)
    (by
      intro c hc
      have hceq : c = "INVALID_OTP" := by simpa using hc.symm
      subst hceq
      decide)
  simpa using h

/-- Claim C5: with an active session id, `verifyContact` returns a
validation failure result immediately and issues zero network calls
whenever both email and phone are provided, or neither is, or the
provided email fails the address pattern or exceeds 254 characters, or
the provided phone has fewer than 10 or more than 15 digits after
stripping non-digit characters. -/
theorem claim_C5 (st : AuthState) (email phone : Option String)
    (transport : Nat → FetchOutcome)
    (hsession : optStrTruthy st.sessionId = true)
    (hbad :
      (optStrTruthy email = true ∧ optStrTruthy phone = true) ∨
      (optStrTruthy email = false ∧ optStrTruthy phone = false) ∨
      (optStrTruthy email = true ∧
        (emailRegexAccepts (email.getD "") = false ∨
         254 < (email.getD "").length)) ∨
      (optStrTruthy phone = true ∧
        (((phone.getD "").data.filter Char.isDigit).length < 10 ∨
         15 < ((phone.getD "").data.filter Char.isDigit).length))) :
    (verifyContact st email phone transport).fetches = 0 ∧
    (verifyContact st email phone transport).state = st ∧
    fulfilledFailure (verifyContact st email phone transport).settled = true ∧
    (settledErrorCode (verifyContact st email phone transport).settled
        = some "INVALID_INPUT" ∨
     settledErrorCode (verifyContact st email phone transport).settled
        = some "INVALID_EMAIL_FORMAT" ∨
     settledErrorCode (verifyContact st email phone transport).settled
        = some "INVALID_PHONE_FORMAT") := by
  have hval : ∃ code msg, validateContactInput email phone =
      some (createErrorResponse msg code false false) ∧
      (code = "INVALID_INPUT" ∨ code = "INVALID_EMAIL_FORMAT" ∨
       code = "INVALID_PHONE_FORMAT") := by
    cases he : optStrTruthy email with
    | true =>
      cases hp : optStrTruthy phone with
      | true =>
        exact ⟨"INVALID_INPUT",
          "Please provide either email or phone number, not both.",
          by simp [validateContactInput, he, hp], Or.inl rfl⟩
      | false =>
        have hereg : emailRegexAccepts (email.getD "") = false ∨
            254 < (email.getD "").length := by
          rcases hbad with ⟨h1, h2⟩ | ⟨h1, h2⟩ | ⟨h1, h2⟩ | ⟨h1, h2⟩
          · rw [hp] at h2
            exact absurd h2 (by simp)
          · rw [he] at h1
            exact absurd h1 (by simp)
          · exact h2
          · rw [hp] at h1
            exact absurd h1 (by simp)
        have hef : validateEmailFormat (email.getD "") = false := by
          unfold validateEmailFormat
          by_cases hem : ((email.getD "") == "") = true
          · rw [if_pos hem]
          · rw [if_neg hem]
            rcases hereg with h1 | h2
            · simp [h1]
            · have hgt : ¬ ((email.getD "").length ≤ 254) := by omega
              simp [hgt]
        exact ⟨"INVALID_EMAIL_FORMAT", "Please enter a valid email address.",
          by simp [validateContactInput, he, hp, hef], Or.inr (Or.inl rfl)⟩
    | false =>
      cases hp : optStrTruthy phone with
      | false =>
        exact ⟨"INVALID_INPUT", "Please provide either email or phone number",
          by simp [validateContactInput, he, hp], Or.inl rfl⟩
      | true =>
        have hpreg : ((phone.getD "").data.filter Char.isDigit).length < 10 ∨
            15 < ((phone.getD "").data.filter Char.isDigit).length := by
          rcases hbad with ⟨h1, h2⟩ | ⟨h1, h2⟩ | ⟨h1, h2⟩ | ⟨h1, h2⟩
          · rw [he] at h1
            exact absurd h1 (by simp)
          · rw [hp] at h2
            exact absurd h2 (by simp)
          · rw [he] at h1
            exact absurd h1 (by simp)
          · exact h2
        have hpf : validatePhoneFormat (phone.getD "") = false := by
          unfold validatePhoneFormat
          by_cases hpm : ((phone.getD "") == "") = true
          · rw [if_pos hpm]
          · rw [if_neg hpm]
            rcases hpreg with h1 | h2
            · have hlt : ¬ (10 ≤ ((phone.getD "").data.filter Char.isDigit).length) := by
                omega
              simp [hlt]
            · have hgt : ¬ (((phone.getD "").data.filter Char.isDigit).length ≤ 15) := by
                omega
              simp [hgt]
        exact ⟨"INVALID_PHONE_FORMAT", "Please enter a valid phone number.",
          by simp [validateContactInput, he, hp, hpf], Or.inr (Or.inr rfl)⟩
  obtain ⟨code, msg, hv, hcode⟩ := hval
  have hvc : verifyContact st email phone transport =
      ⟨Settled.fulfilled (createErrorResponse msg code false false), st, 0, []⟩ := by
    simp [verifyContact, hsession, hv]
  rw [hvc]
  refine ⟨rfl, rfl, rfl, ?_⟩
  rcases hcode with h | h | h
  · subst h
    exact Or.inl rfl
  · subst h
    exact Or.inr (Or.inl rfl)
  · subst h
    exact Or.inr (Or.inr rfl)

/-- Claim C5 witness: `verifyContact(email="x", phone="y")` with an active
session fails locally with a validation failure and zero network calls. -/
theorem claim_C5_witness :
    (verifyContact ⟨some "sess1"⟩ (some "x") (some "y")
        (fun _ => FetchOutcome.netFail "x")).fetches = 0 ∧
    (verifyContact ⟨some "sess1"⟩ (some "x") (some "y")
        (fun _ => FetchOutcome.netFail "x")).state = ⟨some "sess1"⟩ ∧
    fulfilledFailure (verifyContact ⟨some "sess1"⟩ (some "x") (some "y")
        (fun _ => FetchOutcome.netFail "x")).settled = true ∧
    (settledErrorCode (verifyContact ⟨some "sess1"⟩ (some "x") (some "y")
        (fun _ => FetchOutcome.netFail "x")).settled = some "INVALID_INPUT" ∨
     settledErrorCode (verifyContact ⟨some "sess1"⟩ (some "x") (some "y")
        (fun _ => FetchOutcome.netFail "x")).settled = some "INVALID_EMAIL_FORMAT" ∨
     settledErrorCode (verifyContact ⟨some "sess1"⟩ (some "x") (some "y")
        (fun _ => FetchOutcome.netFail "x")).settled = some "INVALID_PHONE_FORMAT") := by
  exact claim_C5 ⟨some "sess1"⟩ (some "x") (some "y")
    (fun _ => FetchOutcome.netFail "x") (by decide)
    (Or.inl ⟨by decide, by decide⟩)

theorem handleResponse_malformed (st : AuthState) (r : RespModel)
    (h : r.body = Body.malformed) :
    handleResponse st r = (Except.error (OpError.resp
      (createErrorResponse "Invalid response from server" "NETWORK_ERROR"
        true true)), st) := by
  unfold handleResponse
  rw [h]

theorem handleResponse_ok2 (st : AuthState) (r : RespModel) (d : BodyData)
    (hok : r.ok = true) (hd : r.body = Body.data d) :
    ∃ rd st1, handleResponse st r = (Except.ok rd, st1) ∧
      rd.success = d.success.getD r.ok := by
  unfold handleResponse
  rw [hd]
  simp only [hok, if_true]
  exact ⟨_, _, rfl, rfl⟩

theorem handleResponse_fail (st : AuthState) (r : RespModel)
    (hok : r.ok = false)
    (hb : r.body = Body.malformed ∨
      ∃ d, r.body = Body.data d ∧ d.success ≠ some true) :
    ∃ rd st1, handleResponse st r = (Except.error (OpError.resp rd), st1) ∧
      rd.success = false := by
  rcases hb with hm | ⟨d, hd, hs⟩
  · exact ⟨_, st, handleResponse_malformed st r hm, rfl⟩
  · have hsucc : d.success.getD false = false := by
      rcases hds : d.success with _ | b
      · rfl
      · cases b with
        | false => rfl
        | true => exact absurd hds hs
    cases h1 : r.status == 401 <;> cases h2 : r.status == 429 <;>
      cases h3 : (r.status == 500 || r.status == 502 ||
        r.status == 503 || r.status == 504) <;>
      · unfold handleResponse
        rw [hd]
        simp only [hok, h1, h2, h3, Bool.false_eq_true, if_false, if_true,
          Bool.true_eq_false]
        exact ⟨_, _, rfl, hsucc⟩

/-- A transport outcome that is a delivered failure response: non-ok
HTTP status, with a malformed body or a parsed body whose `success`
field is not `true`. -/
def failingResponse : FetchOutcome → Prop :=
  fun o => ∃ r, o = FetchOutcome.response r ∧ r.ok = false ∧
    (r.body = Body.malformed ∨
     ∃ d, r.body = Body.data d ∧ d.success ≠ some true)

theorem requestOp_fail {transport : Nat → FetchOutcome}
    (h : ∀ n, failingResponse (transport n)) :
    ∀ (n : Nat) (st : AuthState), ∃ e s1,
      requestOp transport n st = (Except.error e, s1) ∧
      ∃ rd, e = OpError.resp rd ∧ rd.success = false := by
  intro n st
  obtain ⟨r, hr, hok, hb⟩ := h n
  obtain ⟨rd, st1, hh, hs⟩ := handleResponse_fail st r hok hb
  refine ⟨OpError.resp rd, st1, ?_, rd, rfl, hs⟩
  unfold requestOp
  rw [hr]
  exact hh

theorem withRetryGo_all_err {σ : Type}
    {op : Nat → σ → Except OpError AuthResponse × σ} (baseDelay : Nat)
    (P : OpError → Prop)
    (hop : ∀ n s, ∃ e s1, op n s = (Except.error e, s1) ∧ P e) :
    ∀ (fuel attempt : Nat) (st : σ), ∃ e,
      (withRetryGo op baseDelay attempt st fuel).result = Except.error e ∧
      P e := by
  intro fuel
  induction fuel with
  | zero =>
    intro attempt st
    obtain ⟨e, s1, he, hP⟩ := hop attempt st
    exact ⟨e, by rw [withRetryGo_err_zero he], hP⟩
  | succ fuel1 ih =>
    intro attempt st
    obtain ⟨e, s1, he, hP⟩ := hop attempt st
    cases hr : shouldRetry e with
    | false => exact ⟨e, by rw [withRetryGo_err_stop he hr], hP⟩
    | true =>
      obtain ⟨e2, h2, hP2⟩ := ih (attempt + 1) s1
      refine ⟨e2, ?_, hP2⟩
      rw [withRetryGo_err_retry he hr]
      exact h2

theorem withRetryGo_ok_state {σ : Type}
    {op : Nat → σ → Except OpError AuthResponse × σ} (baseDelay : Nat) :
    ∀ (fuel attempt : Nat) (st : σ) (v : AuthResponse),
      (withRetryGo op baseDelay attempt st fuel).result = Except.ok v →
      ∃ n s1, op n s1 =
        (Except.ok v, (withRetryGo op baseDelay attempt st fuel).state) := by
  intro fuel
  induction fuel with
  | zero =>
    intro attempt st v hres
    rcases h : op attempt st with ⟨r, st1⟩
    cases r with
    | ok u =>
      rw [withRetryGo_ok h] at hres ⊢
      obtain rfl : u = v := by simpa using hres
      exact ⟨attempt, st, h⟩
    | error e =>
      rw [withRetryGo_err_zero h] at hres
      exact absurd hres (by simp)
  | succ fuel1 ih =>
    intro attempt st v hres
    rcases h : op attempt st with ⟨r, st1⟩
    cases r with
    | ok u =>
      rw [withRetryGo_ok h] at hres ⊢
      obtain rfl : u = v := by simpa using hres
      exact ⟨attempt, st, h⟩
    | error e =>
      cases hr : shouldRetry e with
      | false =>
        rw [withRetryGo_err_stop h hr] at hres
        exact absurd hres (by simp)
      | true =>
        rw [withRetryGo_err_retry h hr] at hres ⊢
        exact ih (attempt + 1) st1 v hres

/-- Claim C1 counterexample: `createSession` against a server that
answers HTTP 400 with a `success: false` body — an expected failure — has
its promise settle by rejection, not by resolving to the failure result
object, after a single attempt (the code wraps no try/catch around
`withRetry`, so the failure thrown by `handleResponse` escapes). -/
theorem claim_C1_counterexample :
    isFulfilled (createSession ⟨none⟩ (fun _ => FetchOutcome.response
        ⟨false, 400, Body.data ⟨some false, some "Session creation failed",
          some "SESSION_CREATION_FAILED", none, none, none⟩, 0⟩)).settled
      = false ∧
    rejectedFailure (createSession ⟨none⟩ (fun _ => FetchOutcome.response
        ⟨false, 400, Body.data ⟨some false, some "Session creation failed",
          some "SESSION_CREATION_FAILED", none, none, none⟩, 0⟩)).settled
      = true ∧
    (createSession ⟨none⟩ (fun _ => FetchOutcome.response
        ⟨false, 400, Body.data ⟨some false, some "Session creation failed",
          some "SESSION_CREATION_FAILED", none, none, none⟩, 0⟩)).fetches
      = 1 := by
  exact ⟨rfl, rfl, rfl⟩

/-- Claim C1 (amended): expected failures are normalized into uniform
failure result objects (`success: false`), but only a `success: false`
body under an HTTP-ok status resolves the retry-wrapped operations;
failure HTTP responses make `createSession`, `verifyContact`, `verifyOTP`
and `resendOTP` reject with the failure object, while `getSessionStatus`
catches it and resolves; a malformed payload is converted into a thrown
technical `NETWORK_ERROR` result object rather than propagating the parse
exception. -/
theorem claim_C1 :
    (∀ (st : AuthState) (transport : Nat → FetchOutcome) (r0 : RespModel)
        (d : BodyData),
      transport 0 = FetchOutcome.response r0 → r0.ok = true →
      r0.body = Body.data d → d.success = some false →
      isFulfilled (createSession st transport).settled = true ∧
      fulfilledFailure (createSession st transport).settled = true ∧
      (createSession st transport).fetches = 1) ∧
    (∀ (st : AuthState) (transport : Nat → FetchOutcome),
      (∀ n, failingResponse (transport n)) →
      rejectedFailure (createSession st transport).settled = true) ∧
    (∀ (st : AuthState) (email phone : Option String)
        (transport : Nat → FetchOutcome),
      optStrTruthy st.sessionId = true →
      validateContactInput email phone = none →
      (∀ n, failingResponse (transport n)) →
      rejectedFailure (verifyContact st email phone transport).settled = true) ∧
    (∀ (st : AuthState) (otp : String) (transport : Nat → FetchOutcome),
      optStrTruthy st.sessionId = true → validateOTPFormat otp = true →
      (∀ n, failingResponse (transport n)) →
      rejectedFailure (verifyOTP st otp transport).settled = true) ∧
    (∀ (st : AuthState) (transport : Nat → FetchOutcome),
      optStrTruthy st.sessionId = true →
      (∀ n, failingResponse (transport n)) →
      rejectedFailure (resendOTP st transport).settled = true) ∧
    (∀ (st : AuthState) (r : RespModel), r.body = Body.malformed →
      handleResponse st r = (Except.error (OpError.resp
        (createErrorResponse "Invalid response from server" "NETWORK_ERROR"
          true true)), st)) ∧
    (∀ (st : AuthState) (r : RespModel),
      optStrTruthy st.sessionId = true → r.ok = false →
      (r.body = Body.malformed ∨
       ∃ d, r.body = Body.data d ∧ d.success ≠ some true) →
      fulfilledFailure (getSessionStatus st
        (FetchOutcome.response r)).settled = true) := by
  refine ⟨?_, ?_, ?_, ?_, ?_, ?_, ?_⟩
  · intro st transport r0 d h0 hok hd hsucc
    obtain ⟨rd, st1, hh, hs⟩ := handleResponse_ok2 st r0 d hok hd
    have hsf : rd.success = false := by
      rw [hs, hsucc]
      rfl
    have hreq : requestOp transport 0 st = (Except.ok rd, st1) := by
      unfold requestOp
      rw [h0]
      exact hh
    have hop : createSessionOp transport 0 st = (Except.ok rd, st1) := by
      unfold createSessionOp
      rw [hreq]
      simp [hsf]
    have htr : withRetry (createSessionOp transport)
        DEFAULT_MAX_RETRIES DEFAULT_BASE_DELAY st = ⟨Except.ok rd, st1, 1, []⟩ := by
      unfold withRetry
      exact withRetryGo_ok hop
    refine ⟨?_, ?_, ?_⟩ <;>
      simp [createSession, htr, settleOf, isFulfilled, fulfilledFailure, hsf]
  · intro st transport hfail
    have hop : ∀ n s, ∃ e s1, createSessionOp transport n s = (Except.error e, s1) ∧
        ∃ rd, e = OpError.resp rd ∧ rd.success = false := by
      intro n s
      obtain ⟨e, s1, he, hP⟩ := requestOp_fail hfail n s
      refine ⟨e, s1, ?_, hP⟩
      unfold createSessionOp
      rw [he]
    obtain ⟨e, hres, rd, hrd, hs⟩ :=
      withRetryGo_all_err DEFAULT_BASE_DELAY _ hop DEFAULT_MAX_RETRIES 0 st
    subst hrd
    simp [createSession, withRetry, hres, settleOf, rejectedFailure, hs]
  · intro st email phone transport hsession hvalid hfail
    obtain ⟨e, hres, rd, hrd, hs⟩ :=
      withRetryGo_all_err DEFAULT_BASE_DELAY _ (requestOp_fail hfail) DEFAULT_MAX_RETRIES 0 st
    subst hrd
    simp [verifyContact, hsession, hvalid, withRetry, hres, settleOf,
      rejectedFailure, hs]
  · intro st otp transport hsession hotp hfail
    obtain ⟨e, hres, rd, hrd, hs⟩ :=
      withRetryGo_all_err DEFAULT_BASE_DELAY _ (requestOp_fail hfail) DEFAULT_MAX_RETRIES 0 st
    subst hrd
    simp [verifyOTP, hsession, hotp, withRetry, hres, settleOf,
      rejectedFailure, hs]
  · intro st transport hsession hfail
    obtain ⟨e, hres, rd, hrd, hs⟩ :=
      withRetryGo_all_err DEFAULT_BASE_DELAY _ (requestOp_fail hfail) DEFAULT_MAX_RETRIES 0 st
    subst hrd
    simp [resendOTP, hsession, withRetry, hres, settleOf, rejectedFailure, hs]
  · intro st r h
    exact handleResponse_malformed st r h
  · intro st r hsid hok hb
    obtain ⟨rd, st1, hh, hs⟩ := handleResponse_fail st r hok hb
    simp [getSessionStatus, hsid, hh, fulfilledFailure, hs]

/-- Claim C1 witness: concrete instances of the amended behaviour — a
`success: false` body under HTTP 200 resolves `createSession` with the
failure object after one fetch; an HTTP 400 failure body makes
`createSession` reject with a failure object; a malformed body becomes the
thrown technical `NETWORK_ERROR` result; `getSessionStatus` resolves with
the failure object of an HTTP 400 response. -/
theorem claim_C1_witness :
    (isFulfilled (createSession ⟨none⟩ (fun _ => FetchOutcome.response
        ⟨true, 200, Body.data ⟨some false, some "No customer found",
          some "CUSTOMER_NOT_FOUND", none, none, none⟩, 0⟩)).settled = true ∧
     fulfilledFailure (createSession ⟨none⟩ (fun _ => FetchOutcome.response
        ⟨true, 200, Body.data ⟨some false, some "No customer found",
          some "CUSTOMER_NOT_FOUND", none, none, none⟩, 0⟩)).settled = true ∧
     (createSession ⟨none⟩ (fun _ => FetchOutcome.response
        ⟨true, 200, Body.data ⟨some false, some "No customer found",
          some "CUSTOMER_NOT_FOUND", none, none, none⟩, 0⟩)).fetches = 1) ∧
    rejectedFailure (createSession ⟨none⟩ (fun _ => FetchOutcome.response
        ⟨false, 400, Body.data ⟨some false, some "Invalid input",
          some "INVALID_INPUT", none, none, none⟩, 0⟩)).settled = true ∧
    handleResponse ⟨none⟩ ⟨false, 500, Body.malformed, 0⟩ =
      (Except.error (OpError.resp (createErrorResponse
        "Invalid response from server" "NETWORK_ERROR" true true)), ⟨none⟩) ∧
    fulfilledFailure (getSessionStatus ⟨some "sess1"⟩ (FetchOutcome.response
        ⟨false, 400, Body.data ⟨some false, some "Invalid session",
          some "INVALID_SESSION", none, none, none⟩, 0⟩)).settled = true := by
  obtain ⟨hA, hB1, hB2, hB3, hB4, hC, hD⟩ := claim_C1
  refine ⟨hA ⟨none⟩ _ _ _ rfl rfl rfl rfl, ?_, hC ⟨none⟩ _ rfl, ?_⟩
  · refine hB1 ⟨none⟩ _ ?_
    intro n
    exact ⟨_, rfl, rfl, Or.inr ⟨_, rfl, by decide⟩⟩
  · refine hD ⟨some "sess1"⟩ _ (by decide) rfl ?_
    exact Or.inr ⟨_, rfl, by decide⟩

/-- Claim C9 counterexample: a `createSession` whose transport takes
10^9 ms (far beyond `REQUEST_TIMEOUT = 30000`) still settles fulfilled
with the server's response — no client-side timeout bounds the request,
because no fetch call is wired to `REQUEST_TIMEOUT`. -/
theorem claim_C9_counterexample :
    (createSession ⟨none⟩ (fun _ => FetchOutcome.response
        ⟨true, 200, Body.data ⟨some true, some "ok", none, none, none,
          some "sid9"⟩, 1000000000⟩)).settled =
      Settled.fulfilled ⟨true, "ok", none, none, none, some "sid9"⟩ ∧
    REQUEST_TIMEOUT < 1000000000 := by
  exact ⟨rfl, by decide⟩

/-- Claim C9 (amended): the service declares `REQUEST_TIMEOUT = 30000`
but never applies it — the outcome of `createSession` is independent of
how long the transport takes, so network operations are not time-bounded
by the client; a `TIMEOUT_ERROR`-coded failure is classified as technical
and retryable. -/
theorem claim_C9 :
    REQUEST_TIMEOUT = 30000 ∧
    (∀ (st : AuthState) (transport : Nat → FetchOutcome) (d : Nat),
      createSession st (fun n => setElapsedOutcome (transport n) d) =
        createSession st transport) ∧
    (∀ r : AuthResponse, r.error_code = some "TIMEOUT_ERROR" →
      shouldRetry (OpError.resp r) = true) := by
  refine ⟨rfl, ?_, ?_⟩
  · intro st transport d
    have hhr : ∀ (s : AuthState) (r : RespModel),
        handleResponse s { r with elapsedMs := d } = handleResponse s r := by
      intro s r
      cases r
      rfl
    have hop : createSessionOp (fun n => setElapsedOutcome (transport n) d) =
        createSessionOp transport := by
      funext n s
      unfold createSessionOp requestOp
      cases ho : transport n with
      | netFail m => simp [setElapsedOutcome, ho]
      | response r =>
        simp only [ho, setElapsedOutcome]
        rw [hhr s r]
    unfold createSession
    rw [hop]
  · intro r h
    exact shouldRetry_of_code h (by decide)

/-- Claim C9 witness: the `TIMEOUT_ERROR` failure result is retryable, and
a concrete transport's `createSession` outcome is unchanged when its
delivery is delayed to 999999 ms. -/
theorem claim_C9_witness :
    shouldRetry (OpError.resp (createErrorResponse
      "Request timed out. Please try again." "TIMEOUT_ERROR" true true)) = true ∧
    createSession ⟨none⟩ (fun n => setElapsedOutcome
        ((fun _ => FetchOutcome.response ⟨true, 200,
          Body.data ⟨some true, some "ok", none, none, none, some "sid9"⟩, 0⟩) n)
        999999) =
      createSession ⟨none⟩ (fun _ => FetchOutcome.response ⟨true, 200,
        Body.data ⟨some true, some "ok", none, none, none, some "sid9"⟩, 0⟩) := by
  obtain ⟨h1, h2, h3⟩ := claim_C9
  exact ⟨h3 _ rfl, h2 ⟨none⟩ _ 999999⟩

/-- Claim C10: `isAuthenticated()` reports session existence, not
completed authentication — it is false exactly when no session id is
held, true for any held (nonempty, server-issued) id, false right after
`clearAuth`, and true immediately after a `createSession` that fulfilled
with a successful response carrying a session id, before any contact or
OTP verification. -/
theorem claim_C10 :
    (∀ st : AuthState, st.sessionId = none → isAuthenticated st = false) ∧
    (∀ (st : AuthState) (s : String), st.sessionId = some s → s ≠ "" →
      isAuthenticated st = true) ∧
    (∀ st : AuthState, isAuthenticated (clearAuth st) = false) ∧
    (∀ (st : AuthState) (transport : Nat → FetchOutcome) (r : AuthResponse),
      (createSession st transport).settled = Settled.fulfilled r →
      r.success = true → optStrTruthy r.session_id = true →
      isAuthenticated (createSession st transport).state = true) := by
  refine ⟨?_, ?_, ?_, ?_⟩
  · intro st h
    simp [isAuthenticated, h, optStrTruthy]
  · intro st s h hne
    simp [isAuthenticated, h, optStrTruthy, hne]
  · intro st
    rfl
  · intro st transport r hset hsucc hsid
    have hres : (withRetryGo (createSessionOp transport) DEFAULT_BASE_DELAY
        0 st DEFAULT_MAX_RETRIES).result = Except.ok r := by
      have h1 : settleOf (withRetryGo (createSessionOp transport)
          DEFAULT_BASE_DELAY 0 st DEFAULT_MAX_RETRIES).result =
          Settled.fulfilled r := by
        simpa [createSession, withRetry] using hset
      rcases h2 : (withRetryGo (createSessionOp transport) DEFAULT_BASE_DELAY
          0 st DEFAULT_MAX_RETRIES).result with e | v
      · rw [h2] at h1
        exact absurd h1 (by simp [settleOf])
      · rw [h2] at h1
        have hv : v = r := by simpa [settleOf] using h1
        rw [hv]
    obtain ⟨n, s1, hop⟩ :=
      withRetryGo_ok_state DEFAULT_BASE_DELAY DEFAULT_MAX_RETRIES 0 st r hres
    have hstate : isAuthenticated (withRetryGo (createSessionOp transport)
        DEFAULT_BASE_DELAY 0 st DEFAULT_MAX_RETRIES).state = true := by
      rcases hro : requestOp transport n s1 with ⟨res, stx⟩
      cases res with
      | error e =>
        have hcs : createSessionOp transport n s1 = (Except.error e, stx) := by
          unfold createSessionOp
          rw [hro]
        rw [hcs] at hop
        exact absurd (congrArg Prod.fst hop) (by simp)
      | ok u =>
        have hcs : createSessionOp transport n s1 =
            (if (u.success && optStrTruthy u.session_id) = true
             then (Except.ok u, updateSession stx (u.session_id.getD ""))
             else (Except.ok u, stx)) := by
          unfold createSessionOp
          rw [hro]
        have hop2 := hcs.symm.trans hop
        have hu : u = r := by
          by_cases hg : (u.success && optStrTruthy u.session_id) = true
          · rw [if_pos hg] at hop2
            simpa using congrArg Prod.fst hop2
          · rw [if_neg hg] at hop2
            simpa using congrArg Prod.fst hop2
        subst hu
        have hg : (u.success && optStrTruthy u.session_id) = true := by
          rw [hsucc, hsid]
          rfl
        rw [if_pos hg] at hop2
        have hst := congrArg Prod.snd hop2
        simp only at hst
        rw [← hst]
        rcases hsi : u.session_id with _ | s
        · rw [hsi] at hsid
          exact absurd hsid (by simp [optStrTruthy])
        · rw [hsi] at hsid
          simp [isAuthenticated, updateSession, hsi, optStrTruthy]
          simpa [optStrTruthy] using hsid
    simpa [createSession, withRetry] using hstate

/-- Claim C10 witness: `isAuthenticated` is true right after a successful
`createSession` returning `sid1` (with no contact or OTP verification
performed), and false after `clearAuth`. -/
theorem claim_C10_witness :
    isAuthenticated (createSession ⟨none⟩ (fun _ => FetchOutcome.response
        ⟨true, 200, Body.data ⟨some true, some "ok", none, none, none,
          some "sid1"⟩, 0⟩)).state = true ∧
    isAuthenticated (clearAuth ⟨some "sid1"⟩) = false := by
  obtain ⟨h1, h2, h3, h4⟩ := claim_C10
  refine ⟨h4 ⟨none⟩ _ ⟨true, "ok", none, none, none, some "sid1"⟩ rfl rfl
    (by decide), h3 ⟨some "sid1"⟩⟩
